import Mathlib

/-!
Verification of the freescout-notifier decision engine.

Shallow embedding of the Go sources:
* `internal/models` (Ticket, NotificationStatus, RunStats)
* `business_hours.go` (`BusinessHours`, `IsBusinessHours`, `IsStartOfBusinessDay`)
* `notifier.go` (`shouldSkipTicket`, `recordNotification`, `sendQueuedNotifications`,
  `formatDuration`) together with the SQLite schema of `internal/database/sqlite.go`.

Modelling conventions:
* instants are naturals (seconds); `time.Time` inside a `Ticket` is kept as its
  textual rendering (an opaque string), since no embedded operation computes with it;
* the SQLite `notifications` table is a list of rows; the `UNIQUE(ticket_id,
  notification_type)` key is looked up with `List.find?`;
* `encoding/json` is embedded at the level of the JSON value tree (`Json`):
  `json.Marshal` produces the tree, `json.Unmarshal` reads it back, with Go's
  zero-value semantics for absent object keys;
* external effects of the flush loop (Slack transport, SQLite `UPDATE`) are
  oracles `sendOk` / `updateOk` giving the outcome of each call per key, and
  `time.Sleep` calls are counted.
-/

namespace FreescoutNotifier

/-! ## internal/models/models.go -/

/-- `models.Ticket`. `LastReplyAt` (a `time.Time`) is modeled by its textual
rendering; integer fields are Go `int`s, hence `Int`. -/
structure Ticket where
  ID : Int
  Number : Int
  Subject : String
  CustomerEmail : String
  CustomerName : String
  AssignedUserID : Option Int
  AssignedUserName : String
  LastReplyAt : String
  MinutesSinceReply : Int
  MailboxID : Int
  NotificationType : String

/-- `models.NotificationStatus` (`pending` / `queued` / `sent`). -/
inductive NotificationStatus where
  | pending
  | queued
  | sent
deriving DecidableEq

/-! ## encoding/json, at the JSON-value level -/

/-- A JSON value tree, the meeting point of `json.Marshal` and `json.Unmarshal`. -/
inductive Json where
  | null
  | num (n : Int)
  | str (s : String)
  | obj (fields : List (String × Json))

/-- Key lookup in a JSON object. -/
def jLookup (fs : List (String × Json)) (k : String) : Option Json :=
  (fs.find? (fun p => p.1 == k)).map (fun p => p.2)

/-- Decode an `int` field; an absent key leaves Go's zero value. -/
def jInt (fs : List (String × Json)) (k : String) : Option Int :=
  match jLookup fs k with
  | none => some 0
  | some (Json.num n) => some n
  | some _ => none

/-- Decode a `string` field; an absent key leaves Go's zero value. -/
def jStr (fs : List (String × Json)) (k : String) : Option String :=
  match jLookup fs k with
  | none => some ""
  | some (Json.str s) => some s
  | some _ => none

/-- Decode a `*int` field; absent key or JSON `null` leave a nil pointer. -/
def jOptInt (fs : List (String × Json)) (k : String) : Option (Option Int) :=
  match jLookup fs k with
  | none => some none
  | some Json.null => some none
  | some (Json.num n) => some (some n)
  | some _ => none

/-- `json.Marshal` of a `models.Ticket` (no struct tags, so Go field names are
the object keys; the nil-able `AssignedUserID` becomes `null` or a number). -/
def marshalTicket (t : Ticket) : Json :=
  Json.obj [
    ("ID", Json.num t.ID),
    ("Number", Json.num t.Number),
    ("Subject", Json.str t.Subject),
    ("CustomerEmail", Json.str t.CustomerEmail),
    ("CustomerName", Json.str t.CustomerName),
    ("AssignedUserID", match t.AssignedUserID with
      | none => Json.null
      | some i => Json.num i),
    ("AssignedUserName", Json.str t.AssignedUserName),
    ("LastReplyAt", Json.str t.LastReplyAt),
    ("MinutesSinceReply", Json.num t.MinutesSinceReply),
    ("MailboxID", Json.num t.MailboxID),
    ("NotificationType", Json.str t.NotificationType)]

/-- `json.Unmarshal` into a `models.Ticket`: a non-object document or a
type-mismatched field is an error (`none`). -/
def unmarshalTicket (j : Json) : Option Ticket :=
  match j with
  | Json.obj fs => do
      let id ← jInt fs "ID"
      let number ← jInt fs "Number"
      let subject ← jStr fs "Subject"
      let custEmail ← jStr fs "CustomerEmail"
      let custName ← jStr fs "CustomerName"
      let auid ← jOptInt fs "AssignedUserID"
      let auname ← jStr fs "AssignedUserName"
      let lastReply ← jStr fs "LastReplyAt"
      let minutes ← jInt fs "MinutesSinceReply"
      let mailbox ← jInt fs "MailboxID"
      let nty ← jStr fs "NotificationType"
      some ⟨id, number, subject, custEmail, custName, auid, auname,
            lastReply, minutes, mailbox, nty⟩
  | _ => none

/-! ## business_hours.go -/

/-- The observations of `t.In(bh.timezone)` that `business_hours.go` reads:
the local calendar date rendered `"2006-01-02"`, the weekday
(`time.Weekday`, 0 = Sunday), the local hour and minute. -/
structure LocalTime where
  dateStr : String
  weekday : Nat
  hour : Int
  minute : Int

/-- The `BusinessHours` component state built by `NewBusinessHours`:
the work-day set and holiday set are membership lists. -/
structure BusinessHours where
  enabled : Bool
  startHour : Int
  endHour : Int
  workDays : List Nat
  holidays : List String
  notifyOnOpen : Bool

/-- `BusinessHours.IsBusinessHours`: disabled means always true; otherwise
holiday, then work-day, then `startHour <= hour < endHour`. -/
def IsBusinessHours (bh : BusinessHours) (lt : LocalTime) : Bool :=
  if !bh.enabled then true
  else if bh.holidays.contains lt.dateStr then false
  else if !(bh.workDays.contains lt.weekday) then false
  else decide (bh.startHour ≤ lt.hour) && decide (lt.hour < bh.endHour)

/-- `BusinessHours.IsStartOfBusinessDay`: needs the feature flags, business
hours, the start hour, and a local minute below 5. -/
def IsStartOfBusinessDay (bh : BusinessHours) (lt : LocalTime) : Bool :=
  if !bh.enabled || !bh.notifyOnOpen then false
  else if !(IsBusinessHours bh lt) then false
  else (lt.hour == bh.startHour) && decide (lt.minute < 5)

/-! ## notifier.go: formatDuration -/

/-- `formatDuration`, at whole-minute granularity (every caller passes
`time.Duration(minutes) * time.Minute`). -/
def formatDuration (m : Nat) : String :=
  if m < 60 then toString m ++ " minutes"
  else
    let hours := m / 60
    let minutes := m % 60
    if hours = 1 then
      if minutes = 0 then "1 hour"
      else "1 hour " ++ toString minutes ++ " minutes"
    else if minutes = 0 then toString hours ++ " hours"
    else toString hours ++ " hours " ++ toString minutes ++ " minutes"

/-! ## The local SQLite store (internal/database/sqlite.go, notifier.go) -/

/-- A row of the `notifications` table (schema in `InitSchema`). -/
structure NotificationRow where
  ticket_id : Int
  notification_type : String
  notification_status : NotificationStatus
  first_eligible_at : Nat
  queued_at : Option Nat
  sent_at : Option Nat
  ticket_subject : String
  customer_name : String
  assigned_user : String
  minutes_waiting : Int
  threshold_minutes : Int
  ticket_data : Json

/-- The `notifications` table; `UNIQUE(ticket_id, notification_type)` makes
key lookup meaningful. -/
abbrev Store := List NotificationRow

/-- The configuration fields the notifier reads (`config.Config`). -/
structure NotifierConfig where
  dryRun : Bool
  maxNotifications : Nat
  cooldownSeconds : Nat
  openThresholdMinutes : Int
  pendingThresholdMinutes : Int

/-- The `WHERE ticket_id = ? AND notification_type = ?` key predicate. -/
def keyMatch (r : NotificationRow) (tid : Int) (nty : String) : Bool :=
  r.ticket_id == tid && r.notification_type == nty

/-- `SELECT ... WHERE ticket_id = ? AND notification_type = ? LIMIT 1`
(at most one row exists under the unique key). -/
def findRow (s : Store) (tid : Int) (nty : String) : Option NotificationRow :=
  s.find? (fun r => keyMatch r tid nty)

/-- `Notifier.shouldSkipTicket`: no row → no skip; `queued` → skip;
a `sent_at` still in cooldown (`now < sent_at + cooldown`) → skip;
otherwise no skip. -/
def shouldSkipTicket (cfg : NotifierConfig) (s : Store) (now : Nat) (t : Ticket) : Bool :=
  match findRow s t.ID t.NotificationType with
  | none => false
  | some r =>
    if r.notification_status == NotificationStatus.queued then true
    else match r.sent_at with
      | some t0 => decide (now < t0 + cfg.cooldownSeconds)
      | none => false

/-- The `WHERE` guard of the `DO UPDATE` clause in `recordNotification`:
`notifications.sent_at IS NULL OR notifications.sent_at <
datetime('now', '-cooldown seconds')`. -/
def cooldownGuard (r : NotificationRow) (now cooldown : Nat) : Bool :=
  match r.sent_at with
  | none => true
  | some t0 => decide (t0 + cooldown < now)

/-- The `DO UPDATE SET` assignment list of `recordNotification`: status and
denormalized fields from `excluded`, each timestamp re-stamped only when the
new status targets it (`threshold_minutes` and `first_eligible_at` are not in
the list). -/
def updateRow (r : NotificationRow) (now : Nat) (t : Ticket)
    (status : NotificationStatus) : NotificationRow :=
  { r with
    notification_status := status,
    ticket_subject := t.Subject,
    customer_name := t.CustomerName,
    assigned_user := t.AssignedUserName,
    minutes_waiting := t.MinutesSinceReply,
    ticket_data := marshalTicket t,
    queued_at := if status = NotificationStatus.queued then some now else r.queued_at,
    sent_at := if status = NotificationStatus.sent then some now else r.sent_at }

/-- The `INSERT` row of `recordNotification`: `first_eligible_at` is not
listed, so the schema default `CURRENT_TIMESTAMP` applies. -/
def insertRow (now : Nat) (t : Ticket) (status : NotificationStatus)
    (th : Int) : NotificationRow :=
  { ticket_id := t.ID,
    notification_type := t.NotificationType,
    notification_status := status,
    first_eligible_at := now,
    queued_at := if status = NotificationStatus.queued then some now else none,
    sent_at := if status = NotificationStatus.sent then some now else none,
    ticket_subject := t.Subject,
    customer_name := t.CustomerName,
    assigned_user := t.AssignedUserName,
    minutes_waiting := t.MinutesSinceReply,
    threshold_minutes := th,
    ticket_data := marshalTicket t }

/-- `Notifier.recordNotification`: the upsert with the cooldown guard on the
conflict branch. -/
def recordNotification (cfg : NotifierConfig) (s : Store) (now : Nat)
    (t : Ticket) (status : NotificationStatus) : Store :=
  let th := if t.NotificationType == "pending_no_customer_response"
            then cfg.pendingThresholdMinutes else cfg.openThresholdMinutes
  match findRow s t.ID t.NotificationType with
  | none => s ++ [insertRow now t status th]
  | some r =>
    if cooldownGuard r now cfg.cooldownSeconds then
      s.map (fun x => if keyMatch x t.ID t.NotificationType
                      then updateRow x now t status else x)
    else s

/-- The `UPDATE notifications SET notification_status = 'sent',
sent_at = CURRENT_TIMESTAMP WHERE ticket_id = ? AND notification_type = ?`
statement of `sendQueuedNotifications`. -/
def markSent (s : Store) (now : Nat) (tid : Int) (nty : String) : Store :=
  s.map (fun x => if keyMatch x tid nty
                  then { x with notification_status := NotificationStatus.sent,
                                sent_at := some now }
                  else x)

/-- The rows with `notification_status = 'queued'`. -/
def queuedRows (s : Store) : Store :=
  s.filter (fun r => r.notification_status == NotificationStatus.queued)

/-- `ORDER BY queued_at ASC` key order (SQLite sorts NULLs first). -/
def optLe (a b : Option Nat) : Bool :=
  match a, b with
  | none, _ => true
  | some _, none => false
  | some x, some y => decide (x ≤ y)

/-- Insertion step of the `queued_at` sort. -/
def insertSorted (r : NotificationRow) : Store → Store
  | [] => [r]
  | x :: xs => if optLe r.queued_at x.queued_at then r :: x :: xs
               else x :: insertSorted r xs

/-- Sort by `queued_at ASC`. -/
def sortByQueuedAt : Store → Store
  | [] => []
  | x :: xs => insertSorted x (sortByQueuedAt xs)

/-- The drain query of `sendQueuedNotifications`:
`WHERE notification_status = 'queued' ORDER BY queued_at ASC LIMIT ?`. -/
def drainQueued (s : Store) (limit : Nat) : Store :=
  (sortByQueuedAt (queuedRows s)).take limit

/-- The outcomes of the external calls made per drained item: the Slack send
and the status `UPDATE`, keyed by (ticket_id, notification_type). -/
structure Transport where
  sendOk : Int → String → Bool
  updateOk : Int → String → Bool

/-- A drained item completes (is counted in `sent`) iff its snapshot parses,
its send succeeds (or dry-run skips it), and its status write succeeds. -/
def itemOk (cfg : NotifierConfig) (tr : Transport) (r : NotificationRow) : Bool :=
  (unmarshalTicket r.ticket_data).isSome
  && (cfg.dryRun || tr.sendOk r.ticket_id r.notification_type)
  && tr.updateOk r.ticket_id r.notification_type

/-- The `rows.Next()` loop of `sendQueuedNotifications`: each failure logs and
`continue`s; a success marks the row sent, bumps `sent`, and sleeps while
`sent < MaxNotifications`. Returns (store, sent, sleep count). -/
def flushLoop (cfg : NotifierConfig) (tr : Transport) (now : Nat) :
    List NotificationRow → Store → Nat → Nat → Store × Nat × Nat
  | [], s, sent, sleeps => (s, sent, sleeps)
  | r :: rest, s, sent, sleeps =>
    match unmarshalTicket r.ticket_data with
    | none => flushLoop cfg tr now rest s sent sleeps
    | some _ =>
      if !cfg.dryRun && !(tr.sendOk r.ticket_id r.notification_type) then
        flushLoop cfg tr now rest s sent sleeps
      else if !(tr.updateOk r.ticket_id r.notification_type) then
        flushLoop cfg tr now rest s sent sleeps
      else
        flushLoop cfg tr now rest
          (markSent s now r.ticket_id r.notification_type)
          (sent + 1)
          (if sent + 1 < cfg.maxNotifications then sleeps + 1 else sleeps)

/-- Result of one `sendQueuedNotifications` call: the store afterwards, the
sent count, the number of `time.Sleep` calls, and the burst-log rows
(`notifications_sent` of each appended `'burst_sent'` entry). -/
structure FlushResult where
  store : Store
  sent : Nat
  sleeps : Nat
  burstLog : List Nat

/-- `Notifier.sendQueuedNotifications`: drain, loop, then append one burst-log
entry when at least one notification went out. -/
def sendQueuedNotifications (cfg : NotifierConfig) (tr : Transport)
    (s : Store) (now : Nat) : FlushResult :=
  let drained := drainQueued s cfg.maxNotifications
  let res := flushLoop cfg tr now drained s 0 0
  { store := res.1, sent := res.2.1, sleeps := res.2.2,
    burstLog := if 0 < res.2.1 then [res.2.1] else [] }

/-- The start-of-day branch of `Notifier.Run` (lines 49–57): a failed drain
query counts one error; otherwise the flush's sent total is credited and no
error is recorded. Returns (NotificationsSent, Errors) contributed. -/
def flushPhase (queryOk : Bool) (cfg : NotifierConfig) (tr : Transport)
    (s : Store) (now : Nat) : Nat × Nat :=
  if queryOk then ((sendQueuedNotifications cfg tr s now).sent, 0) else (0, 1)

/-! ## Spec-side definition for the amended wait-duration wording -/

/-- The amended rendering rule: under an hour, a minutes count always followed
by the plural word; otherwise an hour part with singular/plural chosen by the
hour count, and, when the leftover minutes are nonzero, a minutes part that is
always plural. -/
def formatDurationAmendedSpec (m : Nat) : String :=
  let hourPart := if m / 60 = 1 then "1 hour" else toString (m / 60) ++ " hours"
  if m < 60 then toString m ++ " minutes"
  else if m % 60 = 0 then hourPart
  else hourPart ++ " " ++ toString (m % 60) ++ " minutes"

/-! ## Helper lemmas -/

theorem unmarshal_marshal (t : Ticket) :
    unmarshalTicket (marshalTicket t) = some t := by
  cases t with
  | mk id number subject custEmail custName auid auname lastReply minutes mailbox nty =>
    cases auid <;> rfl

/-! ## C9: formatDuration pluralization -/

/-- C9 counterexample: a one-minute wait renders with the plural word
("1 minutes"), not the singular "1 minute" the claim requires. -/
theorem formatDuration_singular_cex :
    formatDuration 1 = "1 minutes" ∧ formatDuration 1 ≠ "1 minute" := by
  exact ⟨rfl, by decide⟩

/-- C9 (amended): under an hour the wait string is the minutes count always
followed by the plural word "minutes" (so 1 renders "1 minutes"); at an hour
or more the hour count is singular/plural correct ("1 hour" vs "N hours"),
with nonzero leftover minutes appended always in the plural. -/
theorem formatDuration_eq_amendedSpec (m : Nat) :
    formatDuration m = formatDurationAmendedSpec m := by
  unfold formatDuration formatDurationAmendedSpec
  by_cases h60 : m < 60
  · simp [h60]
  · have h1 : ¬(m / 60 = 0) := by omega
    by_cases hq : m / 60 = 1 <;> by_cases hr : m % 60 = 0 <;>
      simp [h60, hq, hr, String.append_assoc]

/-! ## C3: IsBusinessHours -/

/-- C3: with the feature disabled `IsBusinessHours` is constantly true;
enabled, it is true exactly when the local date is not a holiday, the local
weekday is a work day, and the local hour lies in `[startHour, endHour)`;
in particular (for a non-holiday work day with a nonempty hour range) it is
true at the start hour, and it is false at the end hour. -/
theorem isBusinessHours_spec (bh : BusinessHours) (lt : LocalTime) :
    (IsBusinessHours bh lt = true ↔
      (bh.enabled = false ∨
        (bh.holidays.contains lt.dateStr = false ∧
         bh.workDays.contains lt.weekday = true ∧
         bh.startHour ≤ lt.hour ∧ lt.hour < bh.endHour)))
    ∧ (bh.enabled = true → lt.hour = bh.endHour → IsBusinessHours bh lt = false)
    ∧ (bh.enabled = true → bh.holidays.contains lt.dateStr = false →
        bh.workDays.contains lt.weekday = true → lt.hour = bh.startHour →
        bh.startHour < bh.endHour → IsBusinessHours bh lt = true) := by
  unfold IsBusinessHours
  cases hen : bh.enabled with
  | false => simp
  | true =>
    cases hhol : bh.holidays.contains lt.dateStr with
    | true => simp [hhol]
    | false =>
      cases hwd : bh.workDays.contains lt.weekday with
      | false => simp [hhol, hwd]
      | true =>
        refine ⟨by simp [hhol, hwd], ?_, ?_⟩ <;> intros <;> simp_all

/-- Concrete instantiation of the C3 boundary clauses: Monday 2025-12-22,
9:00–17:00 work hours, hour 9 is business time and hour 17 is not. -/
theorem isBusinessHours_spec_witness :
    IsBusinessHours ⟨true, 9, 17, [1, 2, 3, 4, 5], ["2025-12-25"], true⟩
        ⟨"2025-12-22", 1, 9, 0⟩ = true
    ∧ IsBusinessHours ⟨true, 9, 17, [1, 2, 3, 4, 5], ["2025-12-25"], true⟩
        ⟨"2025-12-22", 1, 17, 0⟩ = false := by
  constructor
  · exact (isBusinessHours_spec ⟨true, 9, 17, [1, 2, 3, 4, 5], ["2025-12-25"], true⟩
      ⟨"2025-12-22", 1, 9, 0⟩).2.2 rfl rfl rfl rfl (by decide)
  · exact (isBusinessHours_spec ⟨true, 9, 17, [1, 2, 3, 4, 5], ["2025-12-25"], true⟩
      ⟨"2025-12-22", 1, 17, 0⟩).2.1 rfl rfl

/-! ## C4: IsStartOfBusinessDay -/

/-- C4: the start-of-day window holds exactly when business hours are enabled,
the notify-on-open feature is on, the instant is business time, the local hour
is the start hour and the local minute is below 5; it is false when either
flag is off and false from minute 5 on. -/
theorem isStartOfBusinessDay_spec (bh : BusinessHours) (lt : LocalTime) :
    (IsStartOfBusinessDay bh lt = true ↔
      (bh.enabled = true ∧ bh.notifyOnOpen = true ∧
       IsBusinessHours bh lt = true ∧ lt.hour = bh.startHour ∧ lt.minute < 5))
    ∧ (bh.enabled = false → IsStartOfBusinessDay bh lt = false)
    ∧ (bh.notifyOnOpen = false → IsStartOfBusinessDay bh lt = false)
    ∧ (5 ≤ lt.minute → IsStartOfBusinessDay bh lt = false) := by
  unfold IsStartOfBusinessDay
  cases hen : bh.enabled <;> cases hno : bh.notifyOnOpen <;>
    cases hbh : IsBusinessHours bh lt <;>
      refine ⟨by simp [hbh, beq_iff_eq]; try omega, ?_, ?_, ?_⟩ <;>
        intros <;> simp_all [beq_iff_eq]

/-- Concrete instantiation of C4: 9:03 on a work Monday is inside the window,
9:07 is not. -/
theorem isStartOfBusinessDay_spec_witness :
    IsStartOfBusinessDay ⟨true, 9, 17, [1, 2, 3, 4, 5], ["2025-12-25"], true⟩
        ⟨"2025-12-22", 1, 9, 3⟩ = true
    ∧ IsStartOfBusinessDay ⟨true, 9, 17, [1, 2, 3, 4, 5], ["2025-12-25"], true⟩
        ⟨"2025-12-22", 1, 9, 7⟩ = false := by
  constructor
  · exact (isStartOfBusinessDay_spec ⟨true, 9, 17, [1, 2, 3, 4, 5], ["2025-12-25"], true⟩
      ⟨"2025-12-22", 1, 9, 3⟩).1.mpr ⟨rfl, rfl, rfl, rfl, by decide⟩
  · exact (isStartOfBusinessDay_spec ⟨true, 9, 17, [1, 2, 3, 4, 5], ["2025-12-25"], true⟩
      ⟨"2025-12-22", 1, 9, 7⟩).2.2.2 (by decide)

/-! ## Concrete instances used by witnesses and counterexamples -/

/-- A sample configuration: real sends, burst cap 10, one-hour cooldown. -/
def cfgEx : NotifierConfig := ⟨false, 10, 3600, 120, 240⟩

/-- A sample open-category ticket. -/
def tEx : Ticket :=
  { ID := 4, Number := 44, Subject := "s", CustomerEmail := "e",
    CustomerName := "c", AssignedUserID := none, AssignedUserName := "",
    LastReplyAt := "", MinutesSinceReply := 1, MailboxID := 1,
    NotificationType := "open_no_agent_response" }

/-- A queued record for `tEx`. -/
def rowQueuedEx : NotificationRow :=
  { ticket_id := 4, notification_type := "open_no_agent_response",
    notification_status := NotificationStatus.queued,
    first_eligible_at := 0, queued_at := some 0, sent_at := none,
    ticket_subject := "s", customer_name := "c", assigned_user := "",
    minutes_waiting := 1, threshold_minutes := 120, ticket_data := Json.null }

/-- A sent record for `tEx`, `sent_at = 100`. -/
def rowSentEx : NotificationRow :=
  { ticket_id := 4, notification_type := "open_no_agent_response",
    notification_status := NotificationStatus.sent,
    first_eligible_at := 0, queued_at := none, sent_at := some 100,
    ticket_subject := "s", customer_name := "c", assigned_user := "",
    minutes_waiting := 1, threshold_minutes := 120, ticket_data := Json.null }

/-! ## C1: shouldSkipTicket -/

/-- C1: with no record under the (ticket, category) key the ticket is not
skipped; a `queued` record skips regardless of age; a non-queued record with a
non-null `sent_at = t0` skips exactly while `now < t0 + cooldown` (so on
`[t0, t0+C)` and not at or after `t0+C`); a non-queued record with null
`sent_at` does not skip. -/
theorem shouldSkipTicket_spec (cfg : NotifierConfig) (s : Store) (now : Nat)
    (t : Ticket) :
    (findRow s t.ID t.NotificationType = none → shouldSkipTicket cfg s now t = false)
    ∧ (∀ r, findRow s t.ID t.NotificationType = some r →
        (r.notification_status = NotificationStatus.queued →
          shouldSkipTicket cfg s now t = true)
        ∧ (r.notification_status ≠ NotificationStatus.queued →
            (∀ t0, r.sent_at = some t0 →
              (shouldSkipTicket cfg s now t = true ↔ now < t0 + cfg.cooldownSeconds))
            ∧ (r.sent_at = none → shouldSkipTicket cfg s now t = false))) := by
  unfold shouldSkipTicket
  constructor
  · intro h
    rw [h]
  · intro r h
    rw [h]
    constructor
    · intro hq
      simp [hq]
    · intro hq
      have hb : (r.notification_status == NotificationStatus.queued) = false := by
        simpa using hq
      constructor
      · intro t0 h0
        simp [hb, h0]
      · intro h0
        simp [hb, h0]

/-- Concrete instantiation of C1: a queued record skips, a sent record skips
one second before cooldown expiry, and an absent record does not skip. -/
theorem shouldSkipTicket_spec_witness :
    shouldSkipTicket cfgEx [rowQueuedEx] 999999 tEx = true
    ∧ shouldSkipTicket cfgEx [rowSentEx] 3699 tEx = true
    ∧ shouldSkipTicket cfgEx [] 0 tEx = false := by
  refine ⟨?_, ?_, ?_⟩
  · exact ((shouldSkipTicket_spec cfgEx [rowQueuedEx] 999999 tEx).2 rowQueuedEx rfl).1 rfl
  · exact ((((shouldSkipTicket_spec cfgEx [rowSentEx] 3699 tEx).2 rowSentEx rfl).2
      (by decide)).1 100 rfl).mpr (by decide)
  · exact (shouldSkipTicket_spec cfgEx [] 0 tEx).1 rfl

/-! ## Store lemmas -/

theorem keyMatch_eq_true (r : NotificationRow) (tid : Int) (nty : String) :
    keyMatch r tid nty = true ↔ r.ticket_id = tid ∧ r.notification_type = nty := by
  simp [keyMatch]

/-- A conditional per-key map rewrites the looked-up row and nothing else,
as long as the rewrite preserves the key columns. -/
theorem findRow_map_key (s : Store) (tid : Int) (nty : String)
    (f : NotificationRow → NotificationRow)
    (hf : ∀ x, keyMatch (f x) tid nty = keyMatch x tid nty) :
    findRow (s.map (fun x => if keyMatch x tid nty then f x else x)) tid nty
      = (findRow s tid nty).map f := by
  induction s with
  | nil => rfl
  | cons x xs ih =>
    cases hk : keyMatch x tid nty with
    | true => simp [findRow, List.find?, hk, hf x]
    | false => simpa [findRow, List.find?, hk, hf x] using ih

/-- Appending a fresh row to a store where the key is absent: the lookup finds
the new row exactly when its key columns match. -/
theorem findRow_append_of_none (s : Store) (x : NotificationRow) (tid : Int)
    (nty : String) (h : findRow s tid nty = none) :
    findRow (s ++ [x]) tid nty =
      if keyMatch x tid nty then some x else none := by
  induction s with
  | nil =>
    cases hk : keyMatch x tid nty <;> simp [findRow, List.find?, hk]
  | cons y ys ih =>
    cases hky : keyMatch y tid nty with
    | true => simp [findRow, List.find?, hky] at h
    | false =>
      have h' : findRow ys tid nty = none := by
        simpa [findRow, List.find?, hky] using h
      simpa [findRow, List.find?, hky] using ih h'

theorem keyMatch_updateRow (x : NotificationRow) (now : Nat) (t : Ticket)
    (status : NotificationStatus) (tid : Int) (nty : String) :
    keyMatch (updateRow x now t status) tid nty = keyMatch x tid nty := rfl

/-- `markSent` touches no row under a different key. -/
theorem findRow_markSent_ne (s : Store) (now : Nat) (tid' : Int) (nty' : String)
    (tid : Int) (nty : String) (h : ¬(tid' = tid ∧ nty' = nty)) :
    findRow (markSent s now tid' nty') tid nty = findRow s tid nty := by
  induction s with
  | nil => rfl
  | cons x xs ih =>
    have hcons : markSent (x :: xs) now tid' nty' =
        (if keyMatch x tid' nty'
         then ({ x with notification_status := NotificationStatus.sent, sent_at := some now } : NotificationRow)
         else x) :: markSent xs now tid' nty' := rfl
    rw [hcons]
    cases hk : keyMatch x tid nty with
    | true =>
      have hx := (keyMatch_eq_true x tid nty).mp hk
      have hk' : keyMatch x tid' nty' = false := by
        cases hkk : keyMatch x tid' nty' with
        | false => rfl
        | true =>
          have hx' := (keyMatch_eq_true x tid' nty').mp hkk
          exact absurd ⟨hx'.1.symm.trans hx.1, hx'.2.symm.trans hx.2⟩ h
      rw [if_neg (by simp [hk'])]
      unfold findRow
      simp only [List.find?_cons, hk]
    | false =>
      cases hk' : keyMatch x tid' nty' with
      | true =>
        have hupd : keyMatch ({ x with notification_status := NotificationStatus.sent, sent_at := some now } : NotificationRow) tid nty = false := hk
        rw [if_pos (by simp [hk'])]
        unfold findRow at ih ⊢
        simp only [List.find?_cons, hk, hupd]
        exact ih
      | false =>
        rw [if_neg (by simp [hk'])]
        unfold findRow at ih ⊢
        simp only [List.find?_cons, hk]
        exact ih

/-- A row whose key `markSent` does not target survives unchanged. -/
theorem mem_markSent_of_keyMatch_false (s : Store) (now : Nat) (tid' : Int)
    (nty' : String) (r : NotificationRow) (hr : r ∈ s)
    (hk : keyMatch r tid' nty' = false) : r ∈ markSent s now tid' nty' := by
  unfold markSent
  have h2 := List.mem_map_of_mem
    (fun x => if keyMatch x tid' nty'
              then { x with notification_status := NotificationStatus.sent,
                            sent_at := some now }
              else x) hr
  simpa [hk] using h2

/-! ## C2: the upsert's cooldown guard -/

/-- C2: while an existing record's non-null `sent_at` is inside the cooldown
window, `recordNotification` leaves the store untouched (no denormalized
field, no timestamp, no status changes); with `sent_at` null or strictly
older than the cooldown, the conflict update replaces status and all
denormalized fields, re-stamping only the timestamp the new status targets. -/
theorem recordNotification_cooldown_guard (cfg : NotifierConfig) (s : Store)
    (now : Nat) (t : Ticket) (status : NotificationStatus)
    (r : NotificationRow)
    (hfind : findRow s t.ID t.NotificationType = some r) :
    (∀ t0, r.sent_at = some t0 → now < t0 + cfg.cooldownSeconds →
      recordNotification cfg s now t status = s)
    ∧ ((r.sent_at = none ∨
        ∃ t0, r.sent_at = some t0 ∧ t0 + cfg.cooldownSeconds < now) →
        findRow (recordNotification cfg s now t status) t.ID t.NotificationType =
          some { r with
            notification_status := status,
            ticket_subject := t.Subject,
            customer_name := t.CustomerName,
            assigned_user := t.AssignedUserName,
            minutes_waiting := t.MinutesSinceReply,
            ticket_data := marshalTicket t,
            queued_at := if status = NotificationStatus.queued
                         then some now else r.queued_at,
            sent_at := if status = NotificationStatus.sent
                       then some now else r.sent_at }) := by
  constructor
  · intro t0 h0 hlt
    have hg : cooldownGuard r now cfg.cooldownSeconds = false := by
      unfold cooldownGuard
      rw [h0]
      simp
      omega
    unfold recordNotification
    rw [hfind]
    simp [hg]
  · intro hcase
    have hg : cooldownGuard r now cfg.cooldownSeconds = true := by
      unfold cooldownGuard
      rcases hcase with h0 | ⟨t0, h0, hlt⟩ <;> rw [h0]
      simpa using hlt
    unfold recordNotification
    rw [hfind]
    simp only [hg, if_true]
    rw [findRow_map_key s t.ID t.NotificationType
      (fun x => updateRow x now t status) (fun x => rfl), hfind]
    rfl

/-- Concrete instantiation of C2: an in-cooldown upsert is the identity on
the store; after cooldown expiry the conflict update replaces the fields. -/
theorem recordNotification_cooldown_guard_witness :
    recordNotification cfgEx [rowSentEx] 200 tEx NotificationStatus.queued
      = [rowSentEx]
    ∧ findRow (recordNotification cfgEx [rowSentEx] 10000 tEx
          NotificationStatus.queued) tEx.ID tEx.NotificationType =
        some { rowSentEx with
          notification_status := NotificationStatus.queued,
          ticket_subject := tEx.Subject,
          customer_name := tEx.CustomerName,
          assigned_user := tEx.AssignedUserName,
          minutes_waiting := tEx.MinutesSinceReply,
          ticket_data := marshalTicket tEx,
          queued_at := some 10000,
          sent_at := rowSentEx.sent_at } := by
  constructor
  · exact (recordNotification_cooldown_guard cfgEx [rowSentEx] 200 tEx
      NotificationStatus.queued rowSentEx rfl).1 100 rfl (by decide)
  · have h := (recordNotification_cooldown_guard cfgEx [rowSentEx] 10000 tEx
      NotificationStatus.queued rowSentEx rfl).2 (Or.inr ⟨100, rfl, by decide⟩)
    simpa using h

/-! ## C8: timestamp framing -/

theorem recordNotification_of_none (cfg : NotifierConfig) (s : Store)
    (now : Nat) (t : Ticket) (status : NotificationStatus)
    (h : findRow s t.ID t.NotificationType = none) :
    recordNotification cfg s now t status =
      s ++ [insertRow now t status
        (if t.NotificationType == "pending_no_customer_response"
         then cfg.pendingThresholdMinutes else cfg.openThresholdMinutes)] := by
  unfold recordNotification
  rw [h]

theorem recordNotification_of_some_pass (cfg : NotifierConfig) (s : Store)
    (now : Nat) (t : Ticket) (status : NotificationStatus)
    (r : NotificationRow) (h : findRow s t.ID t.NotificationType = some r)
    (hg : cooldownGuard r now cfg.cooldownSeconds = true) :
    recordNotification cfg s now t status =
      s.map (fun x => if keyMatch x t.ID t.NotificationType
                      then updateRow x now t status else x) := by
  unfold recordNotification
  rw [h]
  simp [hg]

theorem recordNotification_of_some_drop (cfg : NotifierConfig) (s : Store)
    (now : Nat) (t : Ticket) (status : NotificationStatus)
    (r : NotificationRow) (h : findRow s t.ID t.NotificationType = some r)
    (hg : cooldownGuard r now cfg.cooldownSeconds = false) :
    recordNotification cfg s now t status = s := by
  unfold recordNotification
  rw [h]
  simp [hg]

theorem findRow_markSent_self (s : Store) (now : Nat) (tid : Int)
    (nty : String) :
    findRow (markSent s now tid nty) tid nty =
      (findRow s tid nty).map
        (fun x => { x with notification_status := NotificationStatus.sent,
                           sent_at := some now }) := by
  unfold markSent
  exact findRow_map_key s tid nty
    (fun x => { x with notification_status := NotificationStatus.sent,
                       sent_at := some now })
    (fun x => rfl)

/-- C8: `first_eligible_at` is stamped with the insert time on first insert
and is never changed by a later conflict update or by `MarkSent`; a conflict
update recording `queued` leaves `sent_at` alone, one recording `sent` leaves
`queued_at` alone, and (when its cooldown guard lets it run) stamps only the
timestamp its status targets; `MarkSent` stamps `sent_at` and preserves
`queued_at`. -/
theorem timestamps_frame (cfg : NotifierConfig) (s : Store) (now : Nat)
    (t : Ticket) (status : NotificationStatus) :
    (findRow s t.ID t.NotificationType = none →
      ∀ r', findRow (recordNotification cfg s now t status)
              t.ID t.NotificationType = some r' →
        r'.first_eligible_at = now
        ∧ r'.queued_at = (if status = NotificationStatus.queued
                          then some now else none)
        ∧ r'.sent_at = (if status = NotificationStatus.sent
                        then some now else none))
    ∧ (∀ r, findRow s t.ID t.NotificationType = some r →
        ∀ r', findRow (recordNotification cfg s now t status)
                t.ID t.NotificationType = some r' →
          r'.first_eligible_at = r.first_eligible_at
          ∧ (status = NotificationStatus.queued → r'.sent_at = r.sent_at)
          ∧ (status = NotificationStatus.sent → r'.queued_at = r.queued_at)
          ∧ (cooldownGuard r now cfg.cooldownSeconds = true →
              (status = NotificationStatus.queued → r'.queued_at = some now)
              ∧ (status = NotificationStatus.sent → r'.sent_at = some now)))
    ∧ (∀ tid nty r, findRow s tid nty = some r →
        ∀ r', findRow (markSent s now tid nty) tid nty = some r' →
          r'.first_eligible_at = r.first_eligible_at
          ∧ r'.queued_at = r.queued_at
          ∧ r'.notification_status = NotificationStatus.sent
          ∧ r'.sent_at = some now) := by
  refine ⟨?_, ?_, ?_⟩
  · intro hnone r' hr'
    rw [recordNotification_of_none cfg s now t status hnone,
        findRow_append_of_none s _ t.ID t.NotificationType hnone,
        if_pos (by simp [keyMatch, insertRow])] at hr'
    cases hr'
    simp [insertRow]
  · intro r hfind r' hr'
    cases hg : cooldownGuard r now cfg.cooldownSeconds with
    | false =>
      rw [recordNotification_of_some_drop cfg s now t status r hfind hg,
          hfind] at hr'
      cases hr'
      refine ⟨rfl, fun _ => rfl, fun _ => rfl, fun h => ?_⟩
      simp at h
    | true =>
      rw [recordNotification_of_some_pass cfg s now t status r hfind hg,
          findRow_map_key s t.ID t.NotificationType
            (fun x => updateRow x now t status) (fun x => rfl),
          hfind] at hr'
      cases hr'
      refine ⟨rfl, ?_, ?_, fun _ => ⟨?_, ?_⟩⟩ <;> rintro rfl <;> simp [updateRow]
  · intro tid nty r hfind r' hr'
    rw [findRow_markSent_self s now tid nty, hfind] at hr'
    cases hr'
    exact ⟨rfl, rfl, rfl, rfl⟩

/-- `rowQueuedEx` as `MarkSent` at instant 777 rewrites it. -/
def rowQueuedSentEx : NotificationRow :=
  { rowQueuedEx with notification_status := NotificationStatus.sent, sent_at := some 777 }

/-- Concrete instantiation of C8 at the example rows: the inserted row carries
`first_eligible_at = 50`; the conflict update and `MarkSent` leave
`first_eligible_at` (and the non-targeted timestamp) unchanged. -/
theorem timestamps_frame_witness :
    (insertRow 50 tEx NotificationStatus.queued 120).first_eligible_at = 50
    ∧ (insertRow 50 tEx NotificationStatus.queued 120).queued_at = some 50
    ∧ (insertRow 50 tEx NotificationStatus.queued 120).sent_at = none
    ∧ (updateRow rowSentEx 10000 tEx NotificationStatus.queued).first_eligible_at
        = rowSentEx.first_eligible_at
    ∧ (updateRow rowSentEx 10000 tEx NotificationStatus.queued).sent_at
        = rowSentEx.sent_at
    ∧ rowQueuedSentEx.first_eligible_at = rowQueuedEx.first_eligible_at
    ∧ rowQueuedSentEx.queued_at = rowQueuedEx.queued_at := by
  have h1 := (timestamps_frame cfgEx [] 50 tEx NotificationStatus.queued).1 rfl
    (insertRow 50 tEx NotificationStatus.queued 120) rfl
  have h2 := (timestamps_frame cfgEx [rowSentEx] 10000 tEx
      NotificationStatus.queued).2.1 rowSentEx rfl
    (updateRow rowSentEx 10000 tEx NotificationStatus.queued) rfl
  have h3 := (timestamps_frame cfgEx [rowQueuedEx] 777 tEx
      NotificationStatus.queued).2.2 4 "open_no_agent_response" rowQueuedEx rfl
    rowQueuedSentEx rfl
  exact ⟨h1.1, by simpa using h1.2.1, by simpa using h1.2.2,
    h2.1, h2.2.1 rfl, h3.1, h3.2.1⟩

/-! ## C7: snapshot round trip -/

/-- C7: a ticket snapshot serialized into the notification record by
`recordNotification` (fresh insert or conflict update) deserializes during
the flush to a ticket with identical display fields: subject, customer name,
assigned agent name and minutes waited. -/
theorem ticket_roundtrip (cfg : NotifierConfig) (s : Store) (now : Nat)
    (t : Ticket) (status : NotificationStatus) :
    (findRow s t.ID t.NotificationType = none →
      ∀ r, findRow (recordNotification cfg s now t status)
             t.ID t.NotificationType = some r →
        ∃ u, unmarshalTicket r.ticket_data = some u
          ∧ u.Subject = t.Subject ∧ u.CustomerName = t.CustomerName
          ∧ u.AssignedUserName = t.AssignedUserName
          ∧ u.MinutesSinceReply = t.MinutesSinceReply)
    ∧ (∀ r0, findRow s t.ID t.NotificationType = some r0 →
        cooldownGuard r0 now cfg.cooldownSeconds = true →
        ∀ r, findRow (recordNotification cfg s now t status)
               t.ID t.NotificationType = some r →
          ∃ u, unmarshalTicket r.ticket_data = some u
            ∧ u.Subject = t.Subject ∧ u.CustomerName = t.CustomerName
            ∧ u.AssignedUserName = t.AssignedUserName
            ∧ u.MinutesSinceReply = t.MinutesSinceReply) := by
  constructor
  · intro hnone r hr
    rw [recordNotification_of_none cfg s now t status hnone,
        findRow_append_of_none s _ t.ID t.NotificationType hnone,
        if_pos (by simp [keyMatch, insertRow])] at hr
    cases hr
    exact ⟨t, by simp [insertRow, unmarshal_marshal], rfl, rfl, rfl, rfl⟩
  · intro r0 hfind hg r hr
    rw [recordNotification_of_some_pass cfg s now t status r0 hfind hg,
        findRow_map_key s t.ID t.NotificationType
          (fun x => updateRow x now t status) (fun x => rfl),
        hfind] at hr
    cases hr
    exact ⟨t, by simp [updateRow, unmarshal_marshal], rfl, rfl, rfl, rfl⟩

/-- Concrete instantiation of C7: the snapshot stored at a fresh insert
round-trips to the original display fields. -/
theorem ticket_roundtrip_witness :
    ∃ u, unmarshalTicket (insertRow 50 tEx NotificationStatus.queued 120).ticket_data
        = some u
      ∧ u.Subject = tEx.Subject ∧ u.CustomerName = tEx.CustomerName
      ∧ u.AssignedUserName = tEx.AssignedUserName
      ∧ u.MinutesSinceReply = tEx.MinutesSinceReply :=
  (ticket_roundtrip cfgEx [] 50 tEx NotificationStatus.queued).1 rfl
    (insertRow 50 tEx NotificationStatus.queued 120) rfl

/-! ## Flush-loop lemmas -/

/-- The flush's sent counter counts exactly the drained items that fully
succeed, regardless of failures in between. -/
theorem flushLoop_sent (cfg : NotifierConfig) (tr : Transport) (now : Nat) :
    ∀ (rows : List NotificationRow) (s : Store) (sent sleeps : Nat),
      (flushLoop cfg tr now rows s sent sleeps).2.1
        = sent + (rows.filter (itemOk cfg tr)).length := by
  intro rows
  induction rows with
  | nil => intro s sent sleeps; simp [flushLoop]
  | cons r rest ih =>
    intro s sent sleeps
    cases hu : unmarshalTicket r.ticket_data with
    | none =>
      have hok : itemOk cfg tr r = false := by simp [itemOk, hu]
      simp [flushLoop, hu, hok, ih]
    | some u =>
      cases hd : cfg.dryRun <;>
        cases hsr : tr.sendOk r.ticket_id r.notification_type <;>
          cases hup : tr.updateOk r.ticket_id r.notification_type <;>
            simp [flushLoop, hu, itemOk, hd, hsr, hup, ih] <;> omega

/-- Sleep count of the flush loop: one sleep after every success whose
cumulative sent count is still below the cap. -/
theorem flushLoop_sleeps (cfg : NotifierConfig) (tr : Transport) (now : Nat) :
    ∀ (rows : List NotificationRow) (s : Store) (sent sleeps : Nat),
      sent + (rows.filter (itemOk cfg tr)).length ≤ cfg.maxNotifications →
      (flushLoop cfg tr now rows s sent sleeps).2.2
        = sleeps +
          (if sent + (rows.filter (itemOk cfg tr)).length = cfg.maxNotifications
              ∧ 0 < (rows.filter (itemOk cfg tr)).length
           then (rows.filter (itemOk cfg tr)).length - 1
           else (rows.filter (itemOk cfg tr)).length) := by
  intro rows
  induction rows with
  | nil => intro s sent sleeps h; simp [flushLoop]
  | cons r rest ih =>
    intro s sent sleeps h
    cases hu : unmarshalTicket r.ticket_data with
    | none =>
      have hok : itemOk cfg tr r = false := by simp [itemOk, hu]
      have h' : sent + (rest.filter (itemOk cfg tr)).length
          ≤ cfg.maxNotifications := by simpa [hok] using h
      simp [flushLoop, hu, hok, ih _ _ _ h']
    | some u =>
      cases hd : cfg.dryRun <;>
        cases hsr : tr.sendOk r.ticket_id r.notification_type <;>
          cases hup : tr.updateOk r.ticket_id r.notification_type
      all_goals
        first
        | (have hok : itemOk cfg tr r = false := by simp [itemOk, hu, hd, hsr, hup]
           have h' : sent + (rest.filter (itemOk cfg tr)).length
               ≤ cfg.maxNotifications := by simpa [hok] using h
           simp [flushLoop, hu, hd, hsr, hup, hok, ih _ _ _ h'])
        | (have hok : itemOk cfg tr r = true := by simp [itemOk, hu, hd, hsr, hup]
           have h' : (sent + 1) + (rest.filter (itemOk cfg tr)).length
               ≤ cfg.maxNotifications := by
             have hh := h
             simp only [List.filter_cons, hok, if_true, List.length_cons] at hh
             omega
           simp [flushLoop, hu, hd, hsr, hup, hok]
           rw [ih _ _ _ h']
           simp only [List.filter_cons, hok, if_true, List.length_cons] at h ⊢
           split_ifs <;> omega)

/-- Under real sends, the flush loop never writes to a key whose transport
send fails: its lookup result is preserved. -/
theorem flushLoop_findRow (cfg : NotifierConfig) (tr : Transport) (now : Nat)
    (tid : Int) (nty : String) (hd : cfg.dryRun = false)
    (hs : tr.sendOk tid nty = false) :
    ∀ (rows : List NotificationRow) (s : Store) (sent sleeps : Nat),
      findRow (flushLoop cfg tr now rows s sent sleeps).1 tid nty
        = findRow s tid nty := by
  intro rows
  induction rows with
  | nil => intro s sent sleeps; rfl
  | cons r rest ih =>
    intro s sent sleeps
    cases hu : unmarshalTicket r.ticket_data with
    | none => simp [flushLoop, hu, ih]
    | some u =>
      cases hsr : tr.sendOk r.ticket_id r.notification_type with
      | false => simp [flushLoop, hu, hd, hsr, ih]
      | true =>
        cases hup : tr.updateOk r.ticket_id r.notification_type with
        | false => simp [flushLoop, hu, hd, hsr, hup, ih]
        | true =>
          have hne : ¬(r.ticket_id = tid ∧ r.notification_type = nty) := by
            rintro ⟨h1, h2⟩
            rw [h1, h2, hs] at hsr
            exact absurd hsr (by simp)
          simp only [flushLoop, hu, hd, hsr, hup]
          simp only [Bool.not_false, Bool.not_true, Bool.false_and,
            Bool.and_false]
          rw [if_neg (by simp), if_neg (by simp)]
          rw [ih, findRow_markSent_ne s now r.ticket_id r.notification_type
            tid nty hne]

/-- Under real sends, a queued row whose key's transport send fails survives
the whole flush loop unchanged as a member of the store. -/
theorem flushLoop_mem (cfg : NotifierConfig) (tr : Transport) (now : Nat)
    (tid : Int) (nty : String) (hd : cfg.dryRun = false)
    (hs : tr.sendOk tid nty = false) :
    ∀ (rows : List NotificationRow) (s : Store) (sent sleeps : Nat)
      (r : NotificationRow), r ∈ s → r.ticket_id = tid →
      r.notification_type = nty →
      r ∈ (flushLoop cfg tr now rows s sent sleeps).1 := by
  intro rows
  induction rows with
  | nil => intro s sent sleeps r hr _ _; exact hr
  | cons x rest ih =>
    intro s sent sleeps r hr h1 h2
    cases hu : unmarshalTicket x.ticket_data with
    | none =>
      simpa [flushLoop, hu] using ih s sent sleeps r hr h1 h2
    | some u =>
      cases hsr : tr.sendOk x.ticket_id x.notification_type with
      | false =>
        simpa [flushLoop, hu, hd, hsr] using ih s sent sleeps r hr h1 h2
      | true =>
        cases hup : tr.updateOk x.ticket_id x.notification_type with
        | false =>
          simpa [flushLoop, hu, hd, hsr, hup] using ih s sent sleeps r hr h1 h2
        | true =>
          have hkm : keyMatch r x.ticket_id x.notification_type = false := by
            cases hk : keyMatch r x.ticket_id x.notification_type with
            | false => rfl
            | true =>
              have hx := (keyMatch_eq_true r x.ticket_id x.notification_type).mp hk
              rw [← hx.1, ← hx.2, h1, h2, hs] at hsr
              exact absurd hsr (by simp)
          have hmem := mem_markSent_of_keyMatch_false s now x.ticket_id
            x.notification_type r hr hkm
          simp only [flushLoop, hu, hd, hsr, hup]
          simp only [Bool.not_false, Bool.not_true, Bool.false_and,
            Bool.and_false]
          rw [if_neg (by simp), if_neg (by simp)]
          exact ih _ _ _ r hmem h1 h2

/-! ## C5: per-item flush failures and the error counter -/

/-- C5 counterexample: a drained batch of two queued items where the first
item's transport send fails contributes zero to the run's error counter
(the claim requires the failure to be counted), while processing continued
and the second item was sent. -/
theorem flush_error_counter_cex :
    (drainQueued
        [{ ticket_id := 1, notification_type := "open_no_agent_response",
           notification_status := NotificationStatus.queued,
           first_eligible_at := 0, queued_at := some 1, sent_at := none,
           ticket_subject := "a", customer_name := "c1", assigned_user := "",
           minutes_waiting := 5, threshold_minutes := 120,
           ticket_data := marshalTicket tEx },
         { ticket_id := 2, notification_type := "open_no_agent_response",
           notification_status := NotificationStatus.queued,
           first_eligible_at := 0, queued_at := some 2, sent_at := none,
           ticket_subject := "b", customer_name := "c2", assigned_user := "",
           minutes_waiting := 6, threshold_minutes := 120,
           ticket_data := marshalTicket tEx }]
        cfgEx.maxNotifications).length = 2
    ∧ Transport.sendOk ⟨fun tid _ => !(tid == 1), fun _ _ => true⟩
        1 "open_no_agent_response" = false
    ∧ flushPhase true cfgEx ⟨fun tid _ => !(tid == 1), fun _ _ => true⟩
        [{ ticket_id := 1, notification_type := "open_no_agent_response",
           notification_status := NotificationStatus.queued,
           first_eligible_at := 0, queued_at := some 1, sent_at := none,
           ticket_subject := "a", customer_name := "c1", assigned_user := "",
           minutes_waiting := 5, threshold_minutes := 120,
           ticket_data := marshalTicket tEx },
         { ticket_id := 2, notification_type := "open_no_agent_response",
           notification_status := NotificationStatus.queued,
           first_eligible_at := 0, queued_at := some 2, sent_at := none,
           ticket_subject := "b", customer_name := "c2", assigned_user := "",
           minutes_waiting := 6, threshold_minutes := 120,
           ticket_data := marshalTicket tEx }]
        100 = (1, 0) := by
  refine ⟨rfl, rfl, rfl⟩

/-- C5 (amended): every per-item failure during the flush (malformed
snapshot, transport send failure, status-write failure) skips to the next
drained item without aborting the batch — the sent total still counts every
later fully-successful item — but such failures are NOT counted in the run's
error counter: whenever the drain query itself succeeds, the flush phase
contributes zero errors. -/
theorem flush_per_item_failures (cfg : NotifierConfig) (tr : Transport)
    (s : Store) (now : Nat) :
    (flushPhase true cfg tr s now).2 = 0
    ∧ (sendQueuedNotifications cfg tr s now).sent
        = ((drainQueued s cfg.maxNotifications).filter (itemOk cfg tr)).length := by
  constructor
  · rfl
  · unfold sendQueuedNotifications
    simp [flushLoop_sent]

/-! ## C6: rate-limit sleeps -/

/-- A queued row with a well-formed snapshot, key (1, open). -/
def rowFlushA : NotificationRow :=
  { rowQueuedEx with ticket_id := 1, queued_at := some 1,
                     ticket_data := marshalTicket tEx }

/-- A queued row with a well-formed snapshot, key (5, open). -/
def rowFlushB : NotificationRow :=
  { rowQueuedEx with ticket_id := 5, queued_at := some 3,
                     ticket_data := marshalTicket tEx }

/-- A transport whose calls all succeed. -/
def trOk : Transport := ⟨fun _ _ => true, fun _ _ => true⟩

/-- C6 counterexample: with a burst cap of 10 and two successfully sent
items, the flush sleeps twice — including after the last item — not the
once (n−1) the claim states. -/
theorem flush_sleeps_cex :
    (sendQueuedNotifications cfgEx trOk [rowFlushA, rowFlushB] 100).sent = 2
    ∧ (sendQueuedNotifications cfgEx trOk [rowFlushA, rowFlushB] 100).sleeps = 2
    ∧ (sendQueuedNotifications cfgEx trOk [rowFlushA, rowFlushB] 100).sleeps
        ≠ 2 - 1 := by
  refine ⟨rfl, rfl, by decide⟩

/-- C6 (amended): the fixed delay runs after every successful send while the
cumulative sent count is below `MaxNotifications`; since the drained batch is
capped at `MaxNotifications`, a flush with n successful sends sleeps n−1
times when n equals `MaxNotifications` (no sleep after the last item) and n
times otherwise (one sleep does follow the last item). -/
theorem flush_sleeps_count (cfg : NotifierConfig) (tr : Transport) (s : Store)
    (now : Nat) :
    (sendQueuedNotifications cfg tr s now).sleeps =
      (if (sendQueuedNotifications cfg tr s now).sent = cfg.maxNotifications
          ∧ 0 < (sendQueuedNotifications cfg tr s now).sent
       then (sendQueuedNotifications cfg tr s now).sent - 1
       else (sendQueuedNotifications cfg tr s now).sent) := by
  have hlen : ((drainQueued s cfg.maxNotifications).filter (itemOk cfg tr)).length
      ≤ cfg.maxNotifications := by
    calc ((drainQueued s cfg.maxNotifications).filter (itemOk cfg tr)).length
        ≤ (drainQueued s cfg.maxNotifications).length :=
          List.length_filter_le _ _
      _ ≤ cfg.maxNotifications := by
          unfold drainQueued
          simp
  unfold sendQueuedNotifications
  simp only [flushLoop_sent, flushLoop_sleeps cfg tr now
    (drainQueued s cfg.maxNotifications) s 0 0 (by simpa using hlen)]
  simp

/-! ## C10: a failed send leaves the queued record intact -/

/-- C10: in a non-dry-run flush, a (ticket, category) key whose transport
send fails is left exactly as it was: its row (status `queued`, original
`queued_at`, null `sent_at`) is unchanged by the flush, it is still among the
rows a later drain selects from, no drained item under that key counts as a
success, and the sent total (which also feeds the burst-log count) counts
only fully-successful items. -/
theorem queued_survives_send_failure (cfg : NotifierConfig) (tr : Transport)
    (s : Store) (now : Nat) (tid : Int) (nty : String)
    (hd : cfg.dryRun = false) (hs : tr.sendOk tid nty = false) :
    findRow (sendQueuedNotifications cfg tr s now).store tid nty
        = findRow s tid nty
    ∧ (∀ r, findRow s tid nty = some r →
        r.notification_status = NotificationStatus.queued →
        r ∈ queuedRows (sendQueuedNotifications cfg tr s now).store)
    ∧ (∀ r : NotificationRow, r.ticket_id = tid → r.notification_type = nty →
        itemOk cfg tr r = false)
    ∧ (sendQueuedNotifications cfg tr s now).sent
        = ((drainQueued s cfg.maxNotifications).filter (itemOk cfg tr)).length := by
  refine ⟨?_, ?_, ?_, ?_⟩
  · unfold sendQueuedNotifications
    exact flushLoop_findRow cfg tr now tid nty hd hs _ s 0 0
  · intro r hfind hq
    have hf : List.find? (fun x => keyMatch x tid nty) s = some r := hfind
    have hmem : r ∈ s := List.mem_of_find?_eq_some hf
    have hpr0 : (fun x => keyMatch x tid nty) r = true :=
      @List.find?_some NotificationRow (fun x => keyMatch x tid nty) r s hf
    have hx := (keyMatch_eq_true r tid nty).mp hpr0
    have hmem2 : r ∈ (flushLoop cfg tr now (drainQueued s cfg.maxNotifications)
        s 0 0).1 :=
      flushLoop_mem cfg tr now tid nty hd hs _ s 0 0 r hmem hx.1 hx.2
    unfold sendQueuedNotifications
    exact List.mem_filter.mpr ⟨hmem2, by simp [hq]⟩
  · intro r h1 h2
    simp [itemOk, hd, h1, h2, hs]
  · unfold sendQueuedNotifications
    simp [flushLoop_sent]

/-- A transport that fails every send to ticket 1 and succeeds otherwise. -/
def trFail1 : Transport := ⟨fun tid _ => !(tid == 1), fun _ _ => true⟩

/-- Concrete instantiation of C10: ticket 1's send fails, its queued row
survives the flush unchanged and still drainable, and only ticket 5 counts. -/
theorem queued_survives_send_failure_witness :
    findRow (sendQueuedNotifications cfgEx trFail1 [rowFlushA, rowFlushB]
        100).store 1 "open_no_agent_response"
      = findRow [rowFlushA, rowFlushB] 1 "open_no_agent_response"
    ∧ rowFlushA ∈ queuedRows (sendQueuedNotifications cfgEx trFail1
        [rowFlushA, rowFlushB] 100).store
    ∧ itemOk cfgEx trFail1 rowFlushA = false
    ∧ (sendQueuedNotifications cfgEx trFail1 [rowFlushA, rowFlushB] 100).sent
      = ((drainQueued [rowFlushA, rowFlushB] cfgEx.maxNotifications).filter
          (itemOk cfgEx trFail1)).length := by
  have h := queued_survives_send_failure cfgEx trFail1 [rowFlushA, rowFlushB]
    100 1 "open_no_agent_response" rfl rfl
  exact ⟨h.1, h.2.1 rowFlushA rfl rfl, h.2.2.1 rowFlushA rfl rfl, h.2.2.2⟩

end FreescoutNotifier
